import Mathlib

/-
Shallow embedding of the repository `Akhil-Biswas/py`:
  * `src/core/logconfig.py` — a `Log` wrapper class that configures a
    Python `logging` logger with a file handler and a colorlog
    `ColoredFormatter` console handler;
  * `src/project/utils/dev.py` — a startup banner printing a logo and a
    developer-info table via `rich`.

Python's `logging` registry, handler dispatch, `strftime` rendering for
the two date formats actually used, and colorlog's escape codes are
modelled explicitly so that the configuration code can be translated
line by line.
-/

set_option autoImplicit false

namespace LogRepo

/-- Severity levels of the Python `logging` module used by this repository. -/
inductive Level where
  | DEBUG
  | INFO
  | WARNING
  | ERROR
  | CRITICAL
  deriving DecidableEq, Repr

/-- Numeric value of each level (`logging.DEBUG = 10`, ..., `logging.CRITICAL = 50`). -/
def Level.toNat : Level → Nat
  | .DEBUG => 10
  | .INFO => 20
  | .WARNING => 30
  | .ERROR => 40
  | .CRITICAL => 50

/-- The `%(levelname)s` field of a record at each level. -/
def Level.levelname : Level → String
  | .DEBUG => "DEBUG"
  | .INFO => "INFO"
  | .WARNING => "WARNING"
  | .ERROR => "ERROR"
  | .CRITICAL => "CRITICAL"

/-- A calendar timestamp as the `time.struct_time` fields that the two
`strftime` format strings of this repository consume. -/
structure DateTime where
  year : Nat
  month : Nat
  day : Nat
  hour : Nat
  minute : Nat
  second : Nat
  deriving DecidableEq, Repr

/-- Decimal rendering of `n` left-padded with zeros to width `w`
(`strftime` zero padding, `%03d` formatting). -/
def padZeros (w : Nat) (n : Nat) : String :=
  let s := toString n
  String.mk (List.replicate (w - s.length) '0') ++ s

/-- Abbreviated month name, `strftime` directive `%b` (C locale). -/
def monthAbbrev : Nat → String
  | 1 => "Jan"
  | 2 => "Feb"
  | 3 => "Mar"
  | 4 => "Apr"
  | 5 => "May"
  | 6 => "Jun"
  | 7 => "Jul"
  | 8 => "Aug"
  | 9 => "Sep"
  | 10 => "Oct"
  | 11 => "Nov"
  | 12 => "Dec"
  | _ => ""

/-- The `%(asctime)s` value produced by `logging.Formatter.formatTime` when no
`datefmt` is given, as for `Log.file_formatter` (logconfig.py lines 10-12):
Python logging's documented defaults `default_time_format = "%Y-%m-%d %H:%M:%S"`
combined with `default_msec_format = "%s,%03d"`. -/
def defaultAsctime (t : DateTime) (msecs : Nat) : String :=
  padZeros 4 t.year ++ "-" ++ padZeros 2 t.month ++ "-" ++ padZeros 2 t.day ++ " " ++
    padZeros 2 t.hour ++ ":" ++ padZeros 2 t.minute ++ ":" ++ padZeros 2 t.second ++
    "," ++ padZeros 3 msecs

/-- The `%(asctime)s` value produced under the console handler's
`datefmt="%Y/%b/%d %H:%M:%S"` (logconfig.py line 16). -/
def streamAsctime (t : DateTime) : String :=
  padZeros 4 t.year ++ "/" ++ monthAbbrev t.month ++ "/" ++ padZeros 2 t.day ++ " " ++
    padZeros 2 t.hour ++ ":" ++ padZeros 2 t.minute ++ ":" ++ padZeros 2 t.second

/-- A log record as the formatting templates of this repository consume it:
logger name, level, message text, creation time, and sub-second milliseconds. -/
structure Record where
  name : String
  level : Level
  msg : String
  created : DateTime
  msecs : Nat
  deriving DecidableEq, Repr

/-- Rendering of `Log.file_formatter` (logconfig.py lines 10-12), the
`logging.Formatter` with format string
`"%(levelname)s:    %(asctime)s - %(name)s - %(message)s"` and no `datefmt`. -/
def file_formatter (r : Record) : String :=
  r.level.levelname ++ ":    " ++ defaultAsctime r.created r.msecs ++ " - " ++
    r.name ++ " - " ++ r.msg

/-- ANSI escape sequence `ESC [ code m`. -/
def esc (code : String) : String :=
  "\x1b[" ++ code ++ "m"

/-- The `log_colors` mapping passed to `ColoredFormatter`
(logconfig.py lines 17-23). -/
def log_colors : List (String × String) :=
  [("DEBUG", "cyan"), ("INFO", "green"), ("WARNING", "yellow"),
   ("ERROR", "red"), ("CRITICAL", "bold_red")]

/-- Escape sequence of each colorlog color name used by this repository
(colorlog's `escape_codes`: foreground cyan 36, green 32, yellow 33, red 31;
`bold_red` = bold 1 + red 31). -/
def colorlogEscape : String → String
  | "cyan" => esc "36"
  | "green" => esc "32"
  | "yellow" => esc "33"
  | "red" => esc "31"
  | "bold_red" => esc "1;31"
  | _ => ""

/-- The `%(log_color)s` value of a record: the escape code of the color that
`log_colors` assigns to the record's levelname (colorlog semantics). -/
def logColor (r : Record) : String :=
  colorlogEscape ((log_colors.lookup r.level.levelname).getD "")

/-- Python `str.endswith`, modelled on the character list of the string. -/
def pyEndsWith (s suffix : String) : Bool :=
  decide ((s.data.reverse.take suffix.data.length).reverse = suffix.data)

/-- Behavior of colorlog's default `reset=True`: a color reset is appended to
the formatted message unless it already ends with one. -/
def withTrailingReset (s : String) : String :=
  if pyEndsWith s (esc "0") then s else s ++ esc "0"

/-- Rendering of `Log.stream_formatter` (logconfig.py lines 13-24): the
`ColoredFormatter` over the format string built on line 13. Python's adjacent
string literals concatenate, so the format string is
`%(log_color)s%(levelname)s%(reset)s:    [%(asctime)s,` ESC`[1;90m%(msecs)03d` ESC`[0m] - `
double-brace, ESC`[38;2;235;9;220m%(name)s` ESC`[0m`, double-brace,
` @%(log_color)s%(message)s`; the literal braces around the name are doubled
in the source and `%`-style formatting renders them verbatim, and there is no
space between `@` and the message. colorlog appends a trailing reset. -/
def stream_formatter (r : Record) : String :=
  withTrailingReset
    (logColor r ++ r.level.levelname ++ esc "0" ++ ":    [" ++
      streamAsctime r.created ++ "," ++ esc "1;90" ++ padZeros 3 r.msecs ++ esc "0" ++
      "] - \x7b\x7b" ++ esc "38;2;235;9;220" ++ r.name ++ esc "0" ++ "\x7d\x7d @" ++
      logColor r ++ r.msg)

/-- Output destinations of the process: `logging.StreamHandler` writes to one
of the two standard streams. -/
inductive StdStream where
  | stdout
  | stderr
  deriving DecidableEq, Repr

/-- Default stream of `logging.StreamHandler()` when constructed with no
stream argument, as on logconfig.py line 54: Python uses `sys.stderr`. -/
def streamHandlerDefaultStream : StdStream := .stderr

/-- Output destination of a handler: a file (with open mode and encoding) or a
standard stream. -/
inductive Sink where
  | file (filename : String) (mode : String) (encoding : String)
  | stream (s : StdStream)
  deriving DecidableEq, Repr

/-- Tags naming the two module-level formatter objects of the `Log` class. -/
inductive FormatterTag where
  | fileFmt
  | streamFmt
  deriving DecidableEq, Repr

/-- Rendering function of each formatter object. -/
def FormatterTag.render : FormatterTag → Record → String
  | .fileFmt => file_formatter
  | .streamFmt => stream_formatter

/-- A configured `logging.Handler`: destination, minimum level, formatter. -/
structure Handler where
  sink : Sink
  level : Nat
  fmt : FormatterTag
  deriving DecidableEq, Repr

def Sink.isFile : Sink → Bool
  | .file .. => true
  | _ => false

def Sink.isStream : Sink → Bool
  | .stream _ => true
  | _ => false

/-- Whether the handler writes to the given standard stream. -/
def Handler.writesTo (h : Handler) (s : StdStream) : Bool :=
  match h.sink with
  | .stream t => decide (t = s)
  | _ => false

/-- A `logging.Logger` object: its own level and its attached handlers. -/
structure Logger where
  level : Nat
  handlers : List Handler
  deriving DecidableEq, Repr

/-- The process-wide logger registry of the `logging` module, keyed by name. -/
abbrev Registry := List (String × Logger)

/-- Behavior of `logging.getLogger(name)`: return the logger already
registered under `name`, or register and return a fresh logger (level
`NOTSET = 0`, no handlers). -/
def getLogger (reg : Registry) (name : String) : Registry × Logger :=
  match reg.lookup name with
  | some l => (reg, l)
  | none =>
    let l : Logger := { level := 0, handlers := [] }
    (reg ++ [(name, l)], l)

/-- Store an updated logger object back under its registry key (Python mutates
the shared object in place; the explicit-state model writes it back). -/
def setLogger (reg : Registry) (name : String) (l : Logger) : Registry :=
  if (reg.lookup name).isSome then
    reg.map (fun p => if p.1 = name then (name, l) else p)
  else
    reg ++ [(name, l)]

/-- State of the `Log` wrapper class (logconfig.py lines 4-34): it holds only
the `log_name` attribute. -/
structure Log where
  log_name : String
  deriving DecidableEq, Repr

/-- Value of `__name__` inside the logconfig module when it is imported as a
package module (`src/core/logconfig.py`). -/
def logconfigModuleName : String := "src.core.logconfig"

/-- Translation of `Log.__init__` (logconfig.py lines 25-34), signature
`def __init__(self, log_name=__name__)`. Python evaluates the default
argument once, at function definition time, in the defining module's
namespace: the default is the logconfig module's own `__name__`, whatever
module the caller lives in. -/
def Log.init (log_name : Option String) : Log :=
  { log_name := log_name.getD logconfigModuleName }

/-- The constructor as seen from a call site in module `callerModule`, making
explicit that the caller's module identity does not enter `Log.__init__`
(the binder is unused, exactly as in the source). -/
def Log.initFromCaller (_callerModule : String) (log_name : Option String) : Log :=
  Log.init log_name

/-- Translation of `Log.app_logger` (logconfig.py lines 36-63). `fsOk` is
whether the operating system lets `logging.FileHandler(filename='logs/app.log',
encoding='utf-8', mode='w')` open its file (the handler opens eagerly, and the
method wraps nothing in try/except, so an `OSError` propagates and no logger is
returned). `addHandler` compares handlers by object identity, and both handler
objects are freshly constructed on every call, so both appends always happen. -/
def Log.app_logger (self : Log) (fsOk : Bool) (reg : Registry) :
    Except String (Registry × Logger) :=
  let p := getLogger reg self.log_name
  let logger : Logger := { p.2 with level := 10 }
  let reg := setLogger p.1 self.log_name logger
  if fsOk then
    let file_handler : Handler :=
      { sink := .file "logs/app.log" "w" "utf-8", level := 10, fmt := .fileFmt }
    let stream_handler : Handler :=
      { sink := .stream streamHandlerDefaultStream, level := 10, fmt := .streamFmt }
    let logger := { logger with handlers := logger.handlers ++ [file_handler, stream_handler] }
    .ok (setLogger reg self.log_name logger, logger)
  else
    .error "OSError: [Errno 2] No such file or directory: logs/app.log"

/-- Dispatch of one emitted record through a logger (`Logger.callHandlers`):
if the record passes the logger's level, every attached handler whose own
level passes formats it once; the result pairs each handler with the line it
writes. -/
def Logger.emit (l : Logger) (r : Record) : List (Handler × String) :=
  if l.level ≤ r.level.toNat then
    (l.handlers.filter (fun h => decide (h.level ≤ r.level.toNat))).map
      (fun h => (h, h.fmt.render r))
  else []

/-- Lines an emitted record contributes to the log file. -/
def Logger.fileLines (l : Logger) (r : Record) : List String :=
  ((l.emit r).filter (fun q => q.1.sink.isFile)).map (fun q => q.2)

/-- Lines an emitted record contributes to the console. -/
def Logger.consoleLines (l : Logger) (r : Record) : List String :=
  ((l.emit r).filter (fun q => q.1.sink.isStream)).map (fun q => q.2)

/-- Scenario of spec §8 property 5: the creation operation called twice with
the same `log_name` in one process (one registry), file system healthy. -/
def appLoggerTwice (name : String) : Except String (Registry × Logger) :=
  match (Log.init (some name)).app_logger true [] with
  | .ok (reg, _) => (Log.init (some name)).app_logger true reg
  | .error e => .error e

/-- Python integer division as used on logconfig.py line 73: division by zero
raises `ZeroDivisionError` instead of producing a value. -/
def pyDiv (a b : Int) : Except String Int :=
  if b = 0 then .error "ZeroDivisionError: division by zero" else .ok (a / b)

/-- One record as emitted by the demo block: level, message, and whether
exception info (a traceback) is attached. -/
structure Emitted where
  level : Level
  msg : String
  excInfo : Bool
  deriving DecidableEq, Repr

/-- Translation of the `if __name__ == "__main__":` block (logconfig.py lines
64-76): five sample records, then `1/0` inside try/except with
`logger.exception("unknown error")` in the handler. `Logger.exception` logs at
`ERROR` severity with `exc_info` (the traceback) attached; it runs only
because `pyDiv 1 0` raises. -/
def main_emits : List Emitted :=
  [⟨.DEBUG, "debug message", false⟩,
   ⟨.INFO, "info message", false⟩,
   ⟨.WARNING, "warning message", false⟩,
   ⟨.ERROR, "error message", false⟩,
   ⟨.CRITICAL, "critical message", false⟩] ++
  (match pyDiv 1 0 with
   | .ok _ => []
   | .error _ => [⟨.ERROR, "unknown error", true⟩])

/-- Record used for concrete evaluations: logger "x", level INFO, message
"hello", created 2024-05-17 12:34:56 with 789 milliseconds. -/
def sampleRecord : Record :=
  { name := "x", level := .INFO, msg := "hello",
    created := { year := 2024, month := 5, day := 17, hour := 12, minute := 34, second := 56 },
    msecs := 789 }

/-- The file handler object constructed by `app_logger`
(logconfig.py lines 49-52 and 57). -/
def the_file_handler : Handler :=
  { sink := .file "logs/app.log" "w" "utf-8", level := 10, fmt := .fileFmt }

/-- The console handler object constructed by `app_logger`
(logconfig.py lines 54-55 and 58). -/
def the_stream_handler : Handler :=
  { sink := .stream streamHandlerDefaultStream, level := 10, fmt := .streamFmt }

/-- The logger produced by one `app_logger` call for a name not previously
registered: level DEBUG, one file handler, one console handler. -/
def freshLogger : Logger :=
  { level := 10, handlers := [the_file_handler, the_stream_handler] }

/-- The logger produced by two `app_logger` calls on the same fresh name:
every handler is attached twice. -/
def dupLogger : Logger :=
  { level := 10,
    handlers := [the_file_handler, the_stream_handler, the_file_handler, the_stream_handler] }

/-- Timestamp format the spec claims for both sinks, written from the spec
words `YYYY/Mon/DD HH:MM:SS` (month abbreviated). -/
def specTimestamp (t : DateTime) : String :=
  padZeros 4 t.year ++ "/" ++ monthAbbrev t.month ++ "/" ++ padZeros 2 t.day ++ " " ++
    padZeros 2 t.hour ++ ":" ++ padZeros 2 t.minute ++ ":" ++ padZeros 2 t.second

/-- File-sink line pattern as the spec words it:
`LEVEL:    TIMESTAMP - LOGGER_NAME - MESSAGE`. -/
def c3_claimed_line (level ts name msg : String) : String :=
  level ++ ":    " ++ ts ++ " - " ++ name ++ " - " ++ msg

/-- Console layout exactly as the claim words it: single braces around the
logger name and a space between the `@` separator and the message. -/
def c4_claimed_render (r : Record) : String :=
  withTrailingReset
    (logColor r ++ r.level.levelname ++ esc "0" ++ ":    [" ++
      streamAsctime r.created ++ "," ++ esc "1;90" ++ padZeros 3 r.msecs ++ esc "0" ++
      "] - \x7b" ++ esc "38;2;235;9;220" ++ r.name ++ esc "0" ++ "\x7d @ " ++
      logColor r ++ r.msg)

/-- Wrap a string in a color escape sequence and a color reset. -/
def colorWrap (color s : String) : String :=
  color ++ s ++ esc "0"

/-- Console layout as amended: double literal braces around the logger name
and no space between `@` and the message; severity color wrapped around the
level label and prefixed to the message (colorlog appends the trailing reset),
milliseconds dimmed, logger name colored. -/
def c4_amended_render (r : Record) : String :=
  withTrailingReset
    (colorWrap (logColor r) r.level.levelname ++ ":    [" ++ streamAsctime r.created ++ "," ++
      colorWrap (esc "1;90") (padZeros 3 r.msecs) ++ "] - \x7b\x7b" ++
      colorWrap (esc "38;2;235;9;220") r.name ++ "\x7d\x7d @" ++ logColor r ++ r.msg)

/-- Severity-to-color mapping exactly as the spec states it. -/
def c6_claimed_color : Level → String
  | .DEBUG => "cyan"
  | .INFO => "green"
  | .WARNING => "yellow"
  | .ERROR => "red"
  | .CRITICAL => "bold_red"

end LogRepo

namespace Dev

/-- A `rich.table.Table` column as configured by dev.py: header text,
justification, style, and the `no_wrap` flag. -/
structure Column where
  header : String
  justify : String
  style : String
  noWrap : Bool
  deriving DecidableEq, Repr

/-- A `rich.table.Table` as configured by dev.py lines 28-42. -/
structure RTable where
  title : String
  titleStyle : String
  showLines : Bool
  columns : List Column
  rows : List (List String)
  deriving DecidableEq, Repr

/-- Something printed to the console by dev.py: `console.print(Align.center(x))`
where `x` is a styled `Text` or a `Table`. -/
inductive PrintEvent where
  | centeredText (text : String) (style : String)
  | centeredTable (t : RTable)
  deriving DecidableEq, Repr

/-- The `BANNER` list of `logo()` (dev.py lines 13-21), with Python's raw
strings and adjacent-literal concatenation resolved. -/
def BANNER : List String :=
  [" _____           _ _",
   "|  __ \\         | | |",
   "| |__) |__ _  __| | |__   ___",
   "|  _  // _\x60 |/ _\x60 | \x27_ \\ / _ \\",
   "| | \\ \\ (_| | (_| | | | |  __/",
   "|_|  \\_\\__,_|\\__,_|_| |_|\\___| •••",
   "\n"]

/-- Translation of `logo()` (dev.py lines 12-25): print the joined banner
centered in bold magenta. -/
def logo : List PrintEvent :=
  [.centeredText (String.intercalate "\n" BANNER) "bold magenta"]

/-- The table built by `banner()` (dev.py lines 28-42). -/
def devTable : RTable :=
  { title := "🚀 DEVELOPER INFO"
    titleStyle := "bold underline yellow on black"
    showLines := true
    columns :=
      [{ header := "PLATFORM", justify := "center", style := "cyan", noWrap := true },
       { header := "USERNAME / URL", justify := "left", style := "magenta", noWrap := false }]
    rows :=
      [["GITHUB", "Akhil-Biswas"],
       ["GITLAB", "Akhil-Biswas"],
       ["LINKEDIN", "akhilbiswas-radhe"],
       ["WEBSITE", "akhil-biswas.netlify.app"]] }

/-- Translation of `banner()` (dev.py lines 26-45): print the logo, then the
centered table (the plain `console.print(table)` on line 44 is commented out
in the source). -/
def banner : List PrintEvent :=
  logo ++ [.centeredTable devTable]

/-- Events printed when the dev module is imported or executed: the top-level
`banner()` call on dev.py line 47 runs unconditionally (no `__main__` guard),
and nothing else in the module prints. -/
def dev_module_events : List PrintEvent :=
  banner

end Dev

namespace LogRepo

/-- Helper: one `app_logger` call on an empty registry registers the name and
attaches exactly the file handler and the console handler, in that order. -/
theorem app_logger_fresh (name : String) :
    (Log.init (some name)).app_logger true [] =
      Except.ok ([(name, freshLogger)], freshLogger) := by
  simp [Log.init, Log.app_logger, getLogger, setLogger, freshLogger,
    the_file_handler, the_stream_handler]

/-- C1: the claim requires that calling `Log(log_name).app_logger()` twice
with the same `log_name` in one process leaves no duplicate handlers and
produces no duplicate lines per record. The code violates it: the second call
attaches a second file handler and a second console handler to the same
registered logger, so one emitted record produces two identical file lines
and two console lines. -/
theorem C1_handler_duplication_on_repeat :
    appLoggerTwice "x" = Except.ok ([("x", dupLogger)], dupLogger) ∧
    dupLogger.handlers.length = 4 ∧
    dupLogger.fileLines sampleRecord =
      [file_formatter sampleRecord, file_formatter sampleRecord] ∧
    (dupLogger.consoleLines sampleRecord).length = 2 :=
  ⟨rfl, rfl, rfl, rfl⟩

/-- C2 counterexample: the file sink does not render timestamps in the
`YYYY/Mon/DD HH:MM:SS` format the claim states for both sinks; at the sample
record it renders `2024-05-17 12:34:56,789`, not `2024/May/17 12:34:56`. -/
theorem C2_file_timestamp_not_spec_format :
    file_formatter sampleRecord = "INFO:    2024-05-17 12:34:56,789 - x - hello" ∧
    defaultAsctime sampleRecord.created sampleRecord.msecs ≠
      specTimestamp sampleRecord.created :=
  ⟨rfl, by decide⟩

/-- C2 amended: only the console sink renders timestamps as
`YYYY/Mon/DD HH:MM:SS`; the file sink uses the logging default
`YYYY-MM-DD HH:MM:SS,mmm`, so the two sinks do not share a timestamp
format. -/
theorem C2_amended_timestamp_formats :
    (∀ t : DateTime, streamAsctime t = specTimestamp t) ∧
    defaultAsctime sampleRecord.created sampleRecord.msecs = "2024-05-17 12:34:56,789" ∧
    streamAsctime sampleRecord.created = "2024/May/17 12:34:56" ∧
    defaultAsctime sampleRecord.created sampleRecord.msecs ≠
      streamAsctime sampleRecord.created :=
  ⟨fun _ => rfl, rfl, rfl, by decide⟩

/-- C3: `app_logger` attaches a file sink targeting the relative path
`logs/app.log`, opened in mode `w` with UTF-8 encoding, at minimum severity
DEBUG (10), whose formatter renders every record as
`LEVEL:    TIMESTAMP - LOGGER_NAME - MESSAGE`. -/
theorem C3_file_sink_configuration (name : String) :
    (Log.init (some name)).app_logger true [] =
      Except.ok ([(name, freshLogger)], freshLogger) ∧
    the_file_handler ∈ freshLogger.handlers ∧
    the_file_handler.sink = Sink.file "logs/app.log" "w" "utf-8" ∧
    the_file_handler.level = 10 ∧
    (∀ r : Record, the_file_handler.fmt.render r =
      c3_claimed_line r.level.levelname (defaultAsctime r.created r.msecs) r.name r.msg) :=
  ⟨app_logger_fresh name, by decide, rfl, rfl, fun _ => rfl⟩

/-- Witness for C3 at the concrete name "app". -/
theorem C3_file_sink_configuration_witness :
    (Log.init (some "app")).app_logger true [] =
      Except.ok ([("app", freshLogger)], freshLogger) ∧
    the_file_handler ∈ freshLogger.handlers ∧
    the_file_handler.sink = Sink.file "logs/app.log" "w" "utf-8" ∧
    the_file_handler.level = 10 ∧
    (∀ r : Record, the_file_handler.fmt.render r =
      c3_claimed_line r.level.levelname (defaultAsctime r.created r.msecs) r.name r.msg) :=
  C3_file_sink_configuration "app"

/-- C4 counterexample: the console formatter does not produce the layout the
claim words (single braces around the logger name, space after `@`); at the
sample record the actual rendering has doubled braces and `@` immediately
followed by the colored message. -/
theorem C4_claimed_layout_fails :
    stream_formatter sampleRecord ≠ c4_claimed_render sampleRecord ∧
    stream_formatter sampleRecord =
      "\x1b[32mINFO\x1b[0m:    [2024/May/17 12:34:56,\x1b[1;90m789\x1b[0m] - " ++
        "\x7b\x7b\x1b[38;2;235;9;220mx\x1b[0m\x7d\x7d @\x1b[32mhello\x1b[0m" :=
  ⟨by decide, rfl⟩

/-- C4 amended: every record renders in the layout
`LEVEL:    [TIMESTAMP,MSEC] - ` doubled-open-brace `LOGGER_NAME`
doubled-close-brace ` @MESSAGE`, with the severity color wrapped around the
level label and prefixed to the message (trailing reset appended), the
milliseconds dimmed, and the logger name colored. -/
theorem C4_amended_layout (r : Record) :
    stream_formatter r = c4_amended_render r := by
  simp [stream_formatter, c4_amended_render, colorWrap, String.append_assoc]

/-- Witness for C4 amended at the sample record. -/
theorem C4_amended_layout_witness :
    stream_formatter sampleRecord = c4_amended_render sampleRecord :=
  C4_amended_layout sampleRecord

/-- C5 counterexample: from a call site in module `app.main`, omitting
`log_name` does not default it to the caller module; it defaults to the
logconfig module name. -/
theorem C5_default_is_module_name_not_caller :
    (Log.initFromCaller "app.main" none).log_name = "src.core.logconfig" ∧
    (Log.initFromCaller "app.main" none).log_name ≠ "app.main" :=
  ⟨rfl, by decide⟩

/-- C5 amended: when `log_name` is unspecified, the constructor defaults it to
the logconfig module identity itself (the default argument is evaluated in
the defining module), regardless of the caller module. -/
theorem C5_amended_default (callerModule : String) :
    (Log.initFromCaller callerModule none).log_name = logconfigModuleName :=
  rfl

/-- Witness for C5 amended at the concrete caller module "app.main". -/
theorem C5_amended_default_witness :
    (Log.initFromCaller "app.main" none).log_name = logconfigModuleName :=
  C5_amended_default "app.main"

/-- C6: the console severity-to-color mapping assigns exactly cyan to DEBUG,
green to INFO, yellow to WARNING, red to ERROR, and bold red to CRITICAL, for
every severity level, and contains no other keys. -/
theorem C6_color_mapping :
    (∀ l : Level, log_colors.lookup l.levelname = some (c6_claimed_color l)) ∧
    log_colors.map Prod.fst =
      [Level.DEBUG.levelname, Level.INFO.levelname, Level.WARNING.levelname,
       Level.ERROR.levelname, Level.CRITICAL.levelname] :=
  ⟨fun l => by cases l <;> rfl, rfl⟩

/-- C7: executed directly, the module emits exactly one sample record at each
of the five severities DEBUG, INFO, WARNING, ERROR, CRITICAL in that order,
then the deliberate `1/0` raises ZeroDivisionError and the handler logs the
caught exception with a traceback attached (the `exception` path, at ERROR
severity), and nothing else is emitted. -/
theorem C7_main_demo_block :
    main_emits.map Emitted.level =
      [.DEBUG, .INFO, .WARNING, .ERROR, .CRITICAL, .ERROR] ∧
    (main_emits.take 5).map (fun e => (e.level, e.excInfo)) =
      [(.DEBUG, false), (.INFO, false), (.WARNING, false),
       (.ERROR, false), (.CRITICAL, false)] ∧
    pyDiv 1 0 = Except.error "ZeroDivisionError: division by zero" ∧
    main_emits.getLast? = some ⟨.ERROR, "unknown error", true⟩ ∧
    main_emits.length = 6 :=
  ⟨rfl, rfl, rfl, rfl, rfl⟩

/-- C8: when the file system refuses to open `logs/app.log`, `app_logger`
fails with the propagated OSError — nothing inside the factory catches it —
and no logger is returned, from any registry state. -/
theorem C8_filesystem_error_propagates (self : Log) (reg : Registry) :
    self.app_logger false reg =
      Except.error "OSError: [Errno 2] No such file or directory: logs/app.log" ∧
    ∀ out : Registry × Logger, self.app_logger false reg ≠ Except.ok out :=
  ⟨rfl, fun _ h => Except.noConfusion h⟩

/-- Witness for C8 at the concrete factory `Log("app")` and empty registry. -/
theorem C8_filesystem_error_propagates_witness :
    (Log.init (some "app")).app_logger false [] =
      Except.error "OSError: [Errno 2] No such file or directory: logs/app.log" ∧
    ∀ out : Registry × Logger, (Log.init (some "app")).app_logger false [] ≠ Except.ok out :=
  C8_filesystem_error_propagates (Log.init (some "app")) []

/-- C9: the console handler is constructed with no stream argument, whose
default destination is standard error, so the logger `app_logger` configures
has a handler writing to stderr and none writing to stdout. -/
theorem C9_console_goes_to_stderr (name : String) :
    streamHandlerDefaultStream = StdStream.stderr ∧
    (Log.init (some name)).app_logger true [] =
      Except.ok ([(name, freshLogger)], freshLogger) ∧
    freshLogger.handlers.any (fun h => h.writesTo StdStream.stderr) = true ∧
    freshLogger.handlers.all (fun h => !h.writesTo StdStream.stdout) = true :=
  ⟨rfl, app_logger_fresh name, rfl, rfl⟩

/-- Witness for C9 at the concrete name "core". -/
theorem C9_console_goes_to_stderr_witness :
    streamHandlerDefaultStream = StdStream.stderr ∧
    (Log.init (some "core")).app_logger true [] =
      Except.ok ([("core", freshLogger)], freshLogger) ∧
    freshLogger.handlers.any (fun h => h.writesTo StdStream.stderr) = true ∧
    freshLogger.handlers.all (fun h => !h.writesTo StdStream.stdout) = true :=
  C9_console_goes_to_stderr "core"

end LogRepo

namespace Dev

/-- C10: importing or executing the dev module runs `banner()` unconditionally
at module top level, which prints the centered logo first and then the
centered table titled with the developer-info heading, whose rows are exactly
GITHUB, GITLAB, LINKEDIN, WEBSITE in that order with fixed two-column content,
and prints nothing else. -/
theorem C10_banner_events :
    dev_module_events =
      [PrintEvent.centeredText (String.intercalate "\n" BANNER) "bold magenta",
       PrintEvent.centeredTable devTable] ∧
    dev_module_events.length = 2 ∧
    devTable.title = "🚀 DEVELOPER INFO" ∧
    devTable.rows =
      [["GITHUB", "Akhil-Biswas"],
       ["GITLAB", "Akhil-Biswas"],
       ["LINKEDIN", "akhilbiswas-radhe"],
       ["WEBSITE", "akhil-biswas.netlify.app"]] ∧
    devTable.rows.all (fun row => row.length = 2) = true :=
  ⟨rfl, rfl, rfl, rfl, rfl⟩

end Dev
